import Mathlib

/-!
Verification development for the ThinkPad Seeker repository.

The repository is a small Python application that scrapes GovDeals auction
listings, filters them for ThinkPad models, reconciles them into a SQLite
store, and — for the shipping scanner — fetches each listing's detail page
and classifies whether the seller ships, via ordered keyword phrase lists.

This file gives a shallow embedding of the pure core of that code:

* `detect_shipping`, `SHIPS_PHRASES`, `NO_SHIP_PHRASES`
  from `src/shipping_scanner.py` (keyword classification),
* the final verdict bucket sort of `run_scan`,
* `filter_listings`, `upsert_listings` and the bookmark toggle
  from `src/tracker.py` / `src/run.py`,
* the page-acquisition / error-surfacing logic of `run_scan` and
  `fetch_search_page`,
* the CAPTCHA lockout detection of `fetch_govdeals_listings` and
  the single-flight scan guard of `run.py`.

Python strings are modelled as Lean `String`; Python's case folding
`str.lower()` is modelled character-wise via `Char.toLower` (the phrase and
marker data in the source is ASCII, where the two agree), and Python's
substring operator `needle in hay` is modelled as `List.IsInfix` on the
underlying character lists.  Python floats that only flow through the records
(prices) are modelled as rationals.  Effectful boundaries (HTTP fetches, HTML
parsing, the SQLite connection) are made explicit: fallible fetches become
`Except`/oracle arguments, and the database becomes an explicit list of rows.
-/

/-- Python's `text.lower()` viewed as a character list (ASCII-faithful). -/
def lowerChars (s : String) : List Char := s.toList.map Char.toLower

/-- Python's `str.lower()` as a `String → String` map. -/
def strLower (s : String) : String := ⟨s.toList.map Char.toLower⟩

/-- Python's substring test `needle in hay` on an already-lowered character
    list (`hay`), as a Bool, so the embedded code stays executable. -/
def strIn (needle : String) (hay : List Char) : Bool :=
  decide (needle.toList <:+: hay)

theorem strIn_iff (needle : String) (hay : List Char) :
    strIn needle hay = true ↔ needle.toList <:+: hay := by
  simp [strIn]

/-- `shipping_scanner.SHIPS_PHRASES` — phrases that strongly indicate the
    seller WILL ship the item (src/shipping_scanner.py lines 24-48). -/
def SHIPS_PHRASES : List String := [
  "will ship",
  "shipping available",
  "shipping is available",
  "can ship",
  "able to ship",
  "we ship",
  "buyer pays shipping",
  "buyer pays for shipping",
  "plus shipping",
  "shipping cost",
  "shipping fee",
  "shipping charges",
  "ships to",
  "shipped to",
  "fedex",
  "usps",
  "ups pickup",
  "freight available",
  "delivery available",
  "remote bidder",
  "remote buyers",
  "ship at buyer",
  "shipping upon request"
]

/-- `shipping_scanner.NO_SHIP_PHRASES` — phrases that indicate the seller
    will NOT ship; these take priority (src/shipping_scanner.py lines 52-79).
    The phrase written `can\x27t ship` is the source's `can't ship`. -/
def NO_SHIP_PHRASES : List String := [
  "no shipping",
  "no ship",
  "will not ship",
  "will not be shipped",
  "cannot ship",
  "can\x27t ship",
  "not available for shipping",
  "does not ship",
  "pickup only",
  "pick up only",
  "pick-up only",
  "local pickup",
  "local pick up",
  "local pick-up",
  "must be picked up",
  "must pick up",
  "in-person pickup",
  "in person only",
  "on-site pickup",
  "onsite pickup",
  "no delivery",
  "buyer must remove",
  "buyer responsible for removal",
  "removal only",
  "no remote",
  "cash and carry"
]

/-- `shipping_scanner.detect_shipping` (src/shipping_scanner.py lines 97-121):
    lower-case the text, scan the negative phrase list first (first match, in
    list order, wins and yields `no_ship`), then the positive list (`ships`),
    otherwise `(unknown, "")`. -/
def detect_shipping (text : String) : String × String :=
  match NO_SHIP_PHRASES.find? (fun phrase => strIn phrase (lowerChars text)) with
  | some phrase => ("no_ship", phrase)
  | none =>
    match SHIPS_PHRASES.find? (fun phrase => strIn phrase (lowerChars text)) with
    | some phrase => ("ships", phrase)
    | none => ("unknown", "")

theorem find?_eq_filter_head? {α : Type} (p : α → Bool) (l : List α) :
    l.find? p = (l.filter p).head? := by
  induction l with
  | nil => rfl
  | cons a t ih =>
    cases h : p a
    · rw [List.find?_cons_of_neg _ (by simp [h]),
        List.filter_cons_of_neg (by simp [h]), ih]
    · rw [List.find?_cons_of_pos _ h, List.filter_cons_of_pos h, List.head?_cons]

/-- C1: For every input text, `detect_shipping` classifies by scanning the
    lower-cased text against the fixed ordered no-ship phrase list first:
    whenever some no-ship phrase occurs in the lower-cased text the verdict is
    `no_ship`, the evidence is the first phrase of the list (in list order)
    that occurs in the text, and in particular a text that also contains a
    ships phrase is still classified `no_ship`, regardless of the positions of
    either phrase in the text. -/
theorem detect_shipping_no_ship_priority (text : String)
    (h : ∃ p ∈ NO_SHIP_PHRASES, p.toList <:+: lowerChars text) :
    (detect_shipping text).1 = "no_ship" ∧
    (NO_SHIP_PHRASES.filter (fun p => strIn p (lowerChars text))).head? =
      some (detect_shipping text).2 ∧
    (∀ q ∈ SHIPS_PHRASES, q.toList <:+: lowerChars text →
      (detect_shipping text).1 = "no_ship") := by
  obtain ⟨p, hp, hinf⟩ := h
  have hsome : (NO_SHIP_PHRASES.find?
      (fun phrase => strIn phrase (lowerChars text))).isSome := by
    rw [List.find?_isSome]
    exact ⟨p, hp, (strIn_iff _ _).mpr hinf⟩
  obtain ⟨ev, hev⟩ := Option.isSome_iff_exists.mp hsome
  unfold detect_shipping
  rw [hev]
  refine ⟨rfl, ?_, fun _ _ _ => rfl⟩
  rw [← find?_eq_filter_head?, hev]

/-- Witness for C1 at a concrete listing text containing both a no-ship and a
    ships phrase. -/
theorem detect_shipping_no_ship_priority_witness :
    (detect_shipping "Local PICKUP ONLY, but we will ship on request").1 =
      "no_ship" :=
  (detect_shipping_no_ship_priority "Local PICKUP ONLY, but we will ship on request"
    ⟨"pickup only", by decide, by decide⟩).1

/-- C10: For every input text, the verdict of `detect_shipping` is one of
    `ships`, `no_ship`, `unknown`; when the verdict is `ships` or `no_ship`
    the evidence is a member of the corresponding phrase list and an actual
    substring of the lower-cased input; and the verdict is `unknown` if and
    only if the evidence is the empty string. -/
theorem detect_shipping_sound (text : String) :
    ((detect_shipping text).1 = "ships" ∨ (detect_shipping text).1 = "no_ship" ∨
      (detect_shipping text).1 = "unknown") ∧
    ((detect_shipping text).1 = "ships" →
      (detect_shipping text).2 ∈ SHIPS_PHRASES ∧
      (detect_shipping text).2.toList <:+: lowerChars text) ∧
    ((detect_shipping text).1 = "no_ship" →
      (detect_shipping text).2 ∈ NO_SHIP_PHRASES ∧
      (detect_shipping text).2.toList <:+: lowerChars text) ∧
    ((detect_shipping text).1 = "unknown" ↔ (detect_shipping text).2 = "") := by
  cases hns : NO_SHIP_PHRASES.find? (fun phrase => strIn phrase (lowerChars text)) with
  | some p =>
    have hres : detect_shipping text = ("no_ship", p) := by
      unfold detect_shipping
      rw [hns]
    have hmem := List.mem_of_find?_eq_some hns
    have hinf := (strIn_iff _ _).mp
      (List.find?_some (p := fun phrase => strIn phrase (lowerChars text)) hns)
    have hne : p ≠ "" := by
      intro hcontra
      rw [hcontra] at hmem
      revert hmem
      decide
    rw [hres]
    refine ⟨Or.inr (Or.inl rfl), ?_, fun _ => ⟨hmem, hinf⟩, ?_⟩
    · intro hcontra
      simp at hcontra
    · constructor
      · intro hcontra
        simp at hcontra
      · intro hcontra
        exact absurd hcontra hne
  | none =>
    cases hs : SHIPS_PHRASES.find? (fun phrase => strIn phrase (lowerChars text)) with
    | some p =>
      have hres : detect_shipping text = ("ships", p) := by
        unfold detect_shipping
        rw [hns, hs]
      have hmem := List.mem_of_find?_eq_some hs
      have hinf := (strIn_iff _ _).mp
        (List.find?_some (p := fun phrase => strIn phrase (lowerChars text)) hs)
      have hne : p ≠ "" := by
        intro hcontra
        rw [hcontra] at hmem
        revert hmem
        decide
      rw [hres]
      refine ⟨Or.inl rfl, fun _ => ⟨hmem, hinf⟩, ?_, ?_⟩
      · intro hcontra
        simp at hcontra
      · constructor
        · intro hcontra
          simp at hcontra
        · intro hcontra
          exact absurd hcontra hne
    | none =>
      have hres : detect_shipping text = ("unknown", "") := by
        unfold detect_shipping
        rw [hns, hs]
      rw [hres]
      refine ⟨Or.inr (Or.inr rfl), ?_, ?_, ⟨fun _ => rfl, fun _ => rfl⟩⟩
      · intro hcontra
        simp at hcontra
      · intro hcontra
        simp at hcontra

/-- One entry of a shipping-scan search page, as built by
    `fetch_search_page` / `_parse_html_search` (src/shipping_scanner.py):
    the dict keys id, title, url, price, location.  The Python float price is
    modelled as a rational. -/
structure ScanListing where
  id : String
  title : String
  url : String
  price : Rat
  location : String
deriving Repr, DecidableEq

/-- One classified result of `run_scan` (src/shipping_scanner.py lines
    358-363): the search fields passed through, plus the verdict, the matched
    evidence phrase, and the scan timestamp. -/
structure ScanResult where
  id : String
  title : String
  url : String
  price : Rat
  location : String
  ships : String
  evidence : String
  scanned_at : String
deriving Repr, DecidableEq

/-- The sort key of `run_scan`'s final ordering step (src/shipping_scanner.py
    lines 374-376): `order = {'ships': 0, 'unknown': 1, 'no_ship': 2}` and
    `order.get(r['ships'], 1)`. -/
def verdict_order (v : String) : Nat :=
  if v = "ships" then 0
  else if v = "unknown" then 1
  else if v = "no_ship" then 2
  else 1

/-- Stable insertion of one result into an already sorted list: the inserted
    element goes in front of the first element whose key is not smaller.
    Together with `sort_results` this is extensionally Python's stable
    `list.sort(key=...)` used by `run_scan`. -/
def sort_insert (r : ScanResult) : List ScanResult → List ScanResult
  | [] => [r]
  | s :: rest =>
    if verdict_order r.ships ≤ verdict_order s.ships then r :: s :: rest
    else s :: sort_insert r rest

/-- `results.sort(key=lambda r: order.get(r['ships'], 1))` — Python's sort is
    stable, so it is modelled by a stable insertion sort on the same key. -/
def sort_results : List ScanResult → List ScanResult
  | [] => []
  | r :: rest => sort_insert r (sort_results rest)

theorem sort_insert_split (r : ScanResult) (A D : List ScanResult)
    (hA : ∀ a ∈ A, verdict_order a.ships < verdict_order r.ships)
    (hD : ∀ d ∈ D, verdict_order r.ships ≤ verdict_order d.ships) :
    sort_insert r (A ++ D) = A ++ r :: D := by
  induction A with
  | nil =>
    cases D with
    | nil => rfl
    | cons d D' =>
      simp only [List.nil_append, sort_insert,
        if_pos (hD d (List.mem_cons_self d D'))]
  | cons a A' ih =>
    have hlt : ¬ verdict_order r.ships ≤ verdict_order a.ships :=
      Nat.not_le.mpr (hA a (List.mem_cons_self a A'))
    simp only [List.cons_append, sort_insert, if_neg hlt, List.append_eq]
    rw [ih (fun x hx => hA x (List.mem_cons_of_mem a hx))]

/-- C2: the final ordering step of `run_scan` is a stable three-way bucket
    sort: for every result list whose verdicts all lie in
    {ships, unknown, no_ship}, the sorted output is all `ships` results
    first, then all `unknown` results, then all `no_ship` results, each
    bucket keeping the relative order of the input list. -/
theorem run_scan_sort_buckets (rs : List ScanResult)
    (h : ∀ r ∈ rs, r.ships = "ships" ∨ r.ships = "unknown" ∨ r.ships = "no_ship") :
    sort_results rs =
      rs.filter (fun r => r.ships == "ships") ++
      (rs.filter (fun r => r.ships == "unknown") ++
       rs.filter (fun r => r.ships == "no_ship")) := by
  induction rs with
  | nil => rfl
  | cons r rest ih =>
    have hr := h r (List.mem_cons_self r rest)
    have hrest := fun x hx => h x (List.mem_cons_of_mem r hx)
    have ihr := ih hrest
    have horderS : ∀ x ∈ rest.filter (fun s => s.ships == "ships"),
        verdict_order x.ships = 0 := by
      intro x hx
      have hx2 : x.ships = "ships" := by
        simpa [beq_iff_eq] using (List.mem_filter.mp hx).2
      simp [verdict_order, hx2]
    have horderU : ∀ x ∈ rest.filter (fun s => s.ships == "unknown"),
        verdict_order x.ships = 1 := by
      intro x hx
      have hx2 : x.ships = "unknown" := by
        simpa [beq_iff_eq] using (List.mem_filter.mp hx).2
      simp [verdict_order, hx2]
    have horderN : ∀ x ∈ rest.filter (fun s => s.ships == "no_ship"),
        verdict_order x.ships = 2 := by
      intro x hx
      have hx2 : x.ships = "no_ship" := by
        simpa [beq_iff_eq] using (List.mem_filter.mp hx).2
      simp [verdict_order, hx2]
    show sort_insert r (sort_results rest) = _
    rw [ihr]
    rcases hr with hS | hU | hN
    · have hkey : verdict_order r.ships = 0 := by simp [verdict_order, hS]
      have hsplit := sort_insert_split r []
        (rest.filter (fun s => s.ships == "ships") ++
         (rest.filter (fun s => s.ships == "unknown") ++
          rest.filter (fun s => s.ships == "no_ship")))
        (by intro a ha; cases ha)
        (by
          intro d hd
          rw [hkey]
          exact Nat.zero_le _)
      rw [List.nil_append] at hsplit
      rw [hsplit]
      simp [List.filter_cons, hS]
    · have hkey : verdict_order r.ships = 1 := by simp [verdict_order, hU]
      have hsplit := sort_insert_split r
        (rest.filter (fun s => s.ships == "ships"))
        (rest.filter (fun s => s.ships == "unknown") ++
         rest.filter (fun s => s.ships == "no_ship"))
        (by
          intro a ha
          rw [hkey, horderS a ha]
          exact Nat.zero_lt_one)
        (by
          intro d hd
          rw [hkey]
          rcases List.mem_append.mp hd with hd | hd
          · rw [horderU d hd]
          · rw [horderN d hd]
            omega)
      rw [hsplit]
      simp [List.filter_cons, hU]
    · have hkey : verdict_order r.ships = 2 := by simp [verdict_order, hN]
      have hsplit := sort_insert_split r
        (rest.filter (fun s => s.ships == "ships") ++
         rest.filter (fun s => s.ships == "unknown"))
        (rest.filter (fun s => s.ships == "no_ship"))
        (by
          intro a ha
          rw [hkey]
          rcases List.mem_append.mp ha with ha | ha
          · rw [horderS a ha]
            exact Nat.zero_lt_two
          · rw [horderU a ha]
            exact Nat.one_lt_two)
        (by
          intro d hd
          rw [hkey, horderN d hd])
      rw [← List.append_assoc, hsplit, List.append_assoc]
      simp [List.filter_cons, hN]

/-- Witness for C2 on a concrete four-element result list with verdicts in
    the order unknown, no_ship, ships, unknown. -/
theorem run_scan_sort_buckets_witness :
    sort_results
      [⟨"a", "A", "u1", 1, "ME", "unknown", "", "t"⟩,
       ⟨"b", "B", "u2", 2, "MA", "no_ship", "pickup only", "t"⟩,
       ⟨"c", "C", "u3", 3, "NH", "ships", "will ship", "t"⟩,
       ⟨"d", "D", "u4", 4, "VT", "unknown", "", "t"⟩] =
      [⟨"c", "C", "u3", 3, "NH", "ships", "will ship", "t"⟩,
       ⟨"a", "A", "u1", 1, "ME", "unknown", "", "t"⟩,
       ⟨"d", "D", "u4", 4, "VT", "unknown", "", "t"⟩,
       ⟨"b", "B", "u2", 2, "MA", "no_ship", "pickup only", "t"⟩] :=
  (run_scan_sort_buckets
    [⟨"a", "A", "u1", 1, "ME", "unknown", "", "t"⟩,
     ⟨"b", "B", "u2", 2, "MA", "no_ship", "pickup only", "t"⟩,
     ⟨"c", "C", "u3", 3, "NH", "ships", "will ship", "t"⟩,
     ⟨"d", "D", "u4", 4, "VT", "unknown", "", "t"⟩]
    (by decide)).trans (by decide)

/-- One raw tracker candidate as built by `fetch_govdeals_listings`
    (src/tracker.py lines 125-135): the dict keys id, source, title, url,
    location, end_time, price, description, plus the `matched_models`
    annotation that `filter_listings` adds (empty before filtering). -/
structure Listing where
  id : String
  source : String
  title : String
  url : String
  location : String
  end_time : String
  price : Rat
  description : String
  matched_models : String
deriving Repr, DecidableEq

/-- The part of config.yaml that `filter_listings` reads: the configured
    model token list (`config.get("models", [])`). -/
structure Config where
  models : List String
deriving Repr, DecidableEq

/-- The lower-cased concatenation `(listing["title"] + " " +
    listing["description"]).lower()` scanned by `filter_listings`. -/
def combinedLower (l : Listing) : List Char :=
  lowerChars (l.title ++ " " ++ l.description)

/-- The body of `filter_listings`'s loop for one candidate (src/tracker.py
    lines 154-169): reject unless the combined text contains a brand keyword
    ("lenovo" or "thinkpad"); reject unless at least one (already lowered)
    model token occurs; otherwise annotate the listing with the comma-joined
    matched tokens and keep it. -/
def filter_step (models : List String) (listing : Listing) : Option Listing :=
  if !(strIn "lenovo" (combinedLower listing)) &&
      !(strIn "thinkpad" (combinedLower listing)) then
    none
  else if (models.filter (fun m => strIn m (combinedLower listing))).isEmpty then
    none
  else
    some { listing with matched_models :=
      (String.intercalate ","
        (models.filter (fun m => strIn m (combinedLower listing)))) }

/-- `tracker.filter_listings` (src/tracker.py lines 143-171): lower-case the
    configured model tokens once, then keep exactly the candidates accepted
    by `filter_step`, in input order. -/
def filter_listings (listings : List Listing) (config : Config) : List Listing :=
  listings.filterMap (filter_step (config.models.map strLower))

theorem filter_step_eq_some (models : List String) (l l' : Listing) :
    filter_step models l = some l' ↔
      (strIn "lenovo" (combinedLower l) = true ∨
       strIn "thinkpad" (combinedLower l) = true) ∧
      (∃ m ∈ models, strIn m (combinedLower l) = true) ∧
      l' = { l with matched_models :=
        (String.intercalate ","
          (models.filter (fun m => strIn m (combinedLower l)))) } := by
  unfold filter_step
  by_cases hbrand : (!(strIn "lenovo" (combinedLower l)) &&
      !(strIn "thinkpad" (combinedLower l))) = true
  · rw [if_pos hbrand]
    simp only [Bool.and_eq_true, Bool.not_eq_true'] at hbrand
    constructor
    · intro hcontra
      cases hcontra
    · rintro ⟨hb | hb, -, -⟩
      · rw [hbrand.1] at hb
        cases hb
      · rw [hbrand.2] at hb
        cases hb
  · rw [if_neg hbrand]
    have hbrand' : strIn "lenovo" (combinedLower l) = true ∨
        strIn "thinkpad" (combinedLower l) = true := by
      rcases Bool.eq_false_or_eq_true (strIn "lenovo" (combinedLower l)) with h1 | h1
      · exact Or.inl h1
      · rcases Bool.eq_false_or_eq_true (strIn "thinkpad" (combinedLower l)) with h2 | h2
        · exact Or.inr h2
        · exact absurd (by rw [h1, h2]; rfl) hbrand
    by_cases hmodel : (models.filter (fun m => strIn m (combinedLower l))).isEmpty = true
    · rw [if_pos hmodel]
      rw [List.isEmpty_iff, List.filter_eq_nil_iff] at hmodel
      constructor
      · intro hcontra
        cases hcontra
      · rintro ⟨-, ⟨m, hm, hin⟩, -⟩
        exact absurd hin (hmodel m hm)
    · rw [if_neg hmodel]
      have hmodel' : ∃ m ∈ models, strIn m (combinedLower l) = true := by
        rcases List.exists_mem_of_ne_nil _
            (fun hnil => hmodel (List.isEmpty_iff.mpr hnil)) with ⟨m, hm⟩
        exact ⟨m, (List.mem_filter.mp hm).1, (List.mem_filter.mp hm).2⟩
      constructor
      · intro hsome
        exact ⟨hbrand', hmodel', (Option.some_inj.mp hsome).symm⟩
      · rintro ⟨-, -, rfl⟩
        rfl

/-- C5: `filter_listings` returns exactly those candidates whose concatenated
    title and description contains, case-insensitively, at least one brand
    keyword ("lenovo" or "thinkpad") AND at least one configured model token;
    a candidate satisfying only one of the two conditions is excluded.  The
    kept candidates are annotated with the comma-joined matched tokens. -/
theorem filter_listings_brand_and_model (listings : List Listing)
    (config : Config) (l' : Listing) :
    l' ∈ filter_listings listings config ↔
      ∃ l ∈ listings,
        (∃ b ∈ ["lenovo", "thinkpad"], b.toList <:+: combinedLower l) ∧
        (∃ m ∈ config.models, (strLower m).toList <:+: combinedLower l) ∧
        l' = { l with matched_models :=
          (String.intercalate ","
            ((config.models.map strLower).filter
              (fun m => strIn m (combinedLower l)))) } := by
  unfold filter_listings
  rw [List.mem_filterMap]
  constructor
  · rintro ⟨l, hl, hstep⟩
    obtain ⟨hbrand, hmodel, heq⟩ := (filter_step_eq_some _ _ _).mp hstep
    refine ⟨l, hl, ?_, ?_, heq⟩
    · rcases hbrand with hb | hb
      · exact ⟨"lenovo", by simp, (strIn_iff _ _).mp hb⟩
      · exact ⟨"thinkpad", by simp, (strIn_iff _ _).mp hb⟩
    · obtain ⟨m, hm, hin⟩ := hmodel
      obtain ⟨m0, hm0, rfl⟩ := List.mem_map.mp hm
      exact ⟨m0, hm0, (strIn_iff _ _).mp hin⟩
  · rintro ⟨l, hl, ⟨b, hb, hbin⟩, ⟨m, hm, hmin⟩, heq⟩
    refine ⟨l, hl, (filter_step_eq_some _ _ _).mpr ⟨?_, ?_, heq⟩⟩
    · simp only [List.mem_cons, List.not_mem_nil, or_false] at hb
      rcases hb with rfl | rfl
      · exact Or.inl ((strIn_iff _ _).mpr hbin)
      · exact Or.inr ((strIn_iff _ _).mpr hbin)
    · exact ⟨strLower m, List.mem_map_of_mem strLower hm, (strIn_iff _ _).mpr hmin⟩

/-- One row of the `listings` table of thinkpads.db (src/tracker.py lines
    176-191), including the `bookmarked` column added by run.py's
    `_ensure_bookmark_column` migration (src/run.py lines 126-144).
    ISO timestamps are opaque strings; the REAL price is a rational. -/
structure DBRow where
  id : String
  source : String
  title : String
  url : String
  location : String
  end_time : String
  first_seen : String
  last_seen : String
  price : Rat
  matched_models : String
  bookmarked : Bool
deriving Repr, DecidableEq

/-- The row INSERTed by `upsert_listings` for a candidate with no prior
    record (src/tracker.py lines 213-232): first_seen = last_seen = now, and
    the bookmarked column keeps its schema default (false). -/
def insert_row (now : String) (l : Listing) : DBRow :=
  { id := l.id, source := l.source, title := l.title, url := l.url,
    location := l.location, end_time := l.end_time,
    first_seen := now, last_seen := now, price := l.price,
    matched_models := l.matched_models, bookmarked := false }

/-- The effect of `upsert_listings`'s UPDATE on a matching row
    (src/tracker.py lines 235-247): only last_seen, price and matched_models
    are SET; every other column is untouched. -/
def update_row (now : String) (l : Listing) (r : DBRow) : DBRow :=
  { r with last_seen := now, price := l.price, matched_models := l.matched_models }

/-- One iteration of `upsert_listings`'s loop (src/tracker.py lines 207-248)
    on an explicit table state: `SELECT id FROM listings WHERE id = ?` is a
    `find?` on the row list; a miss INSERTs a fresh row, a hit UPDATEs every
    row whose id matches (SQL UPDATE ... WHERE id = ?). -/
def upsert_one (now : String) (db : List DBRow) (l : Listing) : List DBRow :=
  match db.find? (fun r => r.id == l.id) with
  | none => db ++ [insert_row now l]
  | some _ => db.map (fun r => if r.id == l.id then update_row now l r else r)

/-- `tracker.upsert_listings` (src/tracker.py lines 195-254) as a fold of the
    per-candidate merge over the table state, all candidates sharing the one
    `now = datetime.utcnow().isoformat()` taken at entry. -/
def upsert_listings (now : String) (db : List DBRow) (listings : List Listing) :
    List DBRow :=
  listings.foldl (upsert_one now) db

/-- `run.toggle_bookmark`'s database effect (src/run.py lines 272-293):
    `UPDATE listings SET bookmarked = ? WHERE id = ?`. -/
def toggle_bookmark (db : List DBRow) (listing_id : String) (new_state : Bool) :
    List DBRow :=
  db.map (fun r => if r.id == listing_id then { r with bookmarked := new_state } else r)

/-- C3: the reconciliation upsert keeps listing identifiers unique: on a
    table with pairwise-distinct ids, merging a candidate whose id has no
    prior record appends exactly one row with first_seen = last_seen = now
    (ids stay distinct), and merging a candidate whose id already exists
    never creates a second row — row count and the id and first_seen columns
    are all left unchanged (the update only touches last_seen, price and
    matched_models). -/
theorem upsert_unique_identifier (now : String) (db : List DBRow) (l : Listing)
    (hnd : (db.map DBRow.id).Nodup) :
    ((upsert_one now db l).map DBRow.id).Nodup ∧
    (db.find? (fun r => r.id == l.id) = none →
      upsert_one now db l = db ++ [insert_row now l] ∧
      (insert_row now l).first_seen = now ∧ (insert_row now l).last_seen = now) ∧
    ((db.find? (fun r => r.id == l.id)).isSome →
      (upsert_one now db l).length = db.length ∧
      (upsert_one now db l).map DBRow.id = db.map DBRow.id ∧
      (upsert_one now db l).map DBRow.first_seen = db.map DBRow.first_seen) := by
  cases hfind : db.find? (fun r => r.id == l.id) with
  | none =>
    have heq : upsert_one now db l = db ++ [insert_row now l] := by
      unfold upsert_one
      rw [hfind]
    have hnotin : l.id ∉ db.map DBRow.id := by
      intro hmem
      obtain ⟨r, hr, hid⟩ := List.mem_map.mp hmem
      have hnone := List.find?_eq_none.mp hfind r hr
      rw [hid] at hnone
      simp at hnone
    refine ⟨?_, fun _ => ⟨heq, rfl, rfl⟩, fun hcontra => by simp [hfind] at hcontra⟩
    rw [heq, List.map_append, List.nodup_append]
    refine ⟨hnd, List.nodup_singleton _, ?_⟩
    intro x hx hx1
    simp only [insert_row, List.map_cons, List.map_nil, List.mem_singleton] at hx1
    rw [hx1] at hx
    exact hnotin hx
  | some r0 =>
    have heq : upsert_one now db l =
        db.map (fun r => if r.id == l.id then update_row now l r else r) := by
      unfold upsert_one
      rw [hfind]
    have hids : (upsert_one now db l).map DBRow.id = db.map DBRow.id := by
      rw [heq, List.map_map]
      refine List.map_congr_left ?_
      intro r hr
      by_cases hc : (r.id == l.id) = true
      · simp only [Function.comp_apply, if_pos hc]
        rfl
      · simp only [Function.comp_apply, if_neg hc]
    have hfs : (upsert_one now db l).map DBRow.first_seen =
        db.map DBRow.first_seen := by
      rw [heq, List.map_map]
      refine List.map_congr_left ?_
      intro r hr
      by_cases hc : (r.id == l.id) = true
      · simp only [Function.comp_apply, if_pos hc]
        rfl
      · simp only [Function.comp_apply, if_neg hc]
    refine ⟨?_, fun hcontra => absurd hcontra (Option.some_ne_none r0), fun _ => ?_⟩
    · rw [hids]
      exact hnd
    · refine ⟨?_, hids, hfs⟩
      rw [heq, List.length_map]

/-- Witness for C3: a one-row table, a fresh candidate and a re-observed
    candidate. -/
theorem upsert_unique_identifier_witness :
    ((upsert_one "2024-05-02T08:00:00"
        [insert_row "2024-05-01T08:00:00"
          ⟨"govdeals-1", "govdeals", "Lenovo ThinkPad T480", "u", "ME", "", 50, "d", "t480"⟩]
        ⟨"govdeals-2", "govdeals", "Lenovo ThinkPad X260", "u2", "MA", "", 40, "d2", "x260"⟩).map
      DBRow.id).Nodup :=
  (upsert_unique_identifier "2024-05-02T08:00:00"
    [insert_row "2024-05-01T08:00:00"
      ⟨"govdeals-1", "govdeals", "Lenovo ThinkPad T480", "u", "ME", "", 50, "d", "t480"⟩]
    ⟨"govdeals-2", "govdeals", "Lenovo ThinkPad X260", "u2", "MA", "", 40, "d2", "x260"⟩
    (by decide)).1

/-- C4: when a stored row's identifier is re-observed by a scrape cycle (with
    any price), the upsert rewrites the table by updating exactly the
    matching rows, the updated row stays in the table, and it agrees with the
    old row on bookmarked, first_seen, id, source, title, url, location and
    end_time while last_seen, price and matched_models take the new values;
    the bookmarked flag is changed by the explicit toggle operation, which
    maps the row to the requested state. -/
theorem upsert_frame_bookmarked (now : String) (db : List DBRow) (l : Listing)
    (r : DBRow) (hr : r ∈ db) (hid : r.id = l.id) :
    upsert_one now db l =
      db.map (fun s => if s.id == l.id then update_row now l s else s) ∧
    update_row now l r ∈ upsert_one now db l ∧
    (update_row now l r).bookmarked = r.bookmarked ∧
    (update_row now l r).first_seen = r.first_seen ∧
    (update_row now l r).id = r.id ∧
    (update_row now l r).source = r.source ∧
    (update_row now l r).title = r.title ∧
    (update_row now l r).url = r.url ∧
    (update_row now l r).location = r.location ∧
    (update_row now l r).end_time = r.end_time ∧
    (update_row now l r).last_seen = now ∧
    (update_row now l r).price = l.price ∧
    (update_row now l r).matched_models = l.matched_models ∧
    (∀ b : Bool, { r with bookmarked := b } ∈ toggle_bookmark db r.id b) := by
  have hbeq : (r.id == l.id) = true := beq_iff_eq.mpr hid
  have hsome : (db.find? (fun s => s.id == l.id)).isSome := by
    rw [List.find?_isSome]
    exact ⟨r, hr, hbeq⟩
  obtain ⟨r0, hr0⟩ := Option.isSome_iff_exists.mp hsome
  have heq : upsert_one now db l =
      db.map (fun s => if s.id == l.id then update_row now l s else s) := by
    unfold upsert_one
    rw [hr0]
  refine ⟨heq, ?_, rfl, rfl, rfl, rfl, rfl, rfl, rfl, rfl, rfl, rfl, rfl, ?_⟩
  · rw [heq]
    exact List.mem_map.mpr ⟨r, hr, by simp [hbeq]⟩
  · intro b
    unfold toggle_bookmark
    exact List.mem_map.mpr ⟨r, hr, by simp⟩

/-- Witness for C4: a bookmarked stored row re-observed at a changed price
    keeps its bookmark and first_seen. -/
theorem upsert_frame_bookmarked_witness :
    (update_row "2024-05-02T08:00:00"
        ⟨"govdeals-1", "govdeals", "Lenovo ThinkPad T480", "u", "ME", "", 60, "d", "t480"⟩
        ⟨"govdeals-1", "govdeals", "Lenovo ThinkPad T480", "u", "ME", "",
          "2024-05-01T08:00:00", "2024-05-01T08:00:00", 50, "t480", true⟩).bookmarked =
      (⟨"govdeals-1", "govdeals", "Lenovo ThinkPad T480", "u", "ME", "",
          "2024-05-01T08:00:00", "2024-05-01T08:00:00", 50, "t480", true⟩ : DBRow).bookmarked :=
  (upsert_frame_bookmarked "2024-05-02T08:00:00"
    [⟨"govdeals-1", "govdeals", "Lenovo ThinkPad T480", "u", "ME", "",
        "2024-05-01T08:00:00", "2024-05-01T08:00:00", 50, "t480", true⟩]
    ⟨"govdeals-1", "govdeals", "Lenovo ThinkPad T480", "u", "ME", "", 60, "d", "t480"⟩
    ⟨"govdeals-1", "govdeals", "Lenovo ThinkPad T480", "u", "ME", "",
        "2024-05-01T08:00:00", "2024-05-01T08:00:00", 50, "t480", true⟩
    (by decide) rfl).2.2.1

/-- `shipping_scanner.fetch_listing_detail` (src/shipping_scanner.py lines
    126-152) with the HTTP-and-parse attempt made explicit: a successful
    attempt produces the extracted page text, and ANY exception is swallowed
    and degraded to the empty string. -/
def fetch_listing_detail (attempt : Except String String) : String :=
  match attempt with
  | Except.ok text => text
  | Except.error _ => ""

/-- `run_scan`'s worker `process_one` (src/shipping_scanner.py lines
    349-363): fetch the listing detail text, classify it, and return the
    search fields annotated with verdict, evidence and scan timestamp. -/
def process_one (now : String) (listing : ScanListing)
    (attempt : Except String String) : ScanResult :=
  { id := listing.id, title := listing.title, url := listing.url,
    price := listing.price, location := listing.location,
    ships := (detect_shipping (fetch_listing_detail attempt)).1,
    evidence := (detect_shipping (fetch_listing_detail attempt)).2,
    scanned_at := now }

/-- `run_scan`'s result-collection loop (src/shipping_scanner.py lines
    365-372): each worker outcome is either a result (appended) or an
    exception (logged and dropped); an exception never escapes the loop. -/
def collect_results (outcomes : List (Except String ScanResult)) :
    List ScanResult :=
  outcomes.foldr
    (fun o acc =>
      match o with
      | Except.ok r => r :: acc
      | Except.error _ => acc)
    []

/-- C6: a fetch or parse failure for one listing never aborts the batch:
    `fetch_listing_detail` returns the empty detail text on any error, the
    classifier maps that listing to verdict `unknown` with empty evidence,
    and an exceptional worker outcome is dropped from the collected results
    (logged, never escalated) — the batch result is exactly the list of
    successful outcomes. -/
theorem worker_failure_isolated (err : String) (now : String)
    (listing : ScanListing) (outcomes : List (Except String ScanResult)) :
    fetch_listing_detail (Except.error err) = "" ∧
    (process_one now listing (Except.error err)).ships = "unknown" ∧
    (process_one now listing (Except.error err)).evidence = "" ∧
    collect_results (Except.error err :: outcomes) = collect_results outcomes ∧
    collect_results outcomes = outcomes.filterMap Except.toOption := by
  refine ⟨rfl, rfl, rfl, rfl, ?_⟩
  induction outcomes with
  | nil => rfl
  | cons o rest ih =>
    cases o with
    | ok r =>
      show r :: collect_results rest = r :: rest.filterMap Except.toOption
      rw [ih]
    | error e =>
      show collect_results rest = rest.filterMap Except.toOption
      rw [ih]

/-- `run_scan`'s paged-acquisition loop (src/shipping_scanner.py lines
    323-336): pages 1 and 2 are fetched in order; `fetch p` yields the page's
    candidate list together with the `_last_search_error` recorded by that
    attempt (`none` when the attempt succeeded — `fetch_search_page` always
    records a non-empty message when it fails).  The loop captures the first
    recorded error, stops early when a page returns no candidates, and stops
    once `max_results` candidates have accumulated.  Returns the accumulated
    candidates and the captured error. -/
def acquire_pages (fetch : Nat → List ScanListing × Option String)
    (max_results : Nat) : List ScanListing × Option String :=
  if (fetch 1).1.isEmpty then ((fetch 1).1, (fetch 1).2)
  else if max_results ≤ (fetch 1).1.length then ((fetch 1).1, (fetch 1).2)
  else
    ((fetch 1).1 ++ (fetch 2).1,
     match (fetch 1).2 with
     | some e => some e
     | none => (fetch 2).2)

/-- `run_scan` up to and including its failure decision (src/shipping_scanner.py
    lines 323-342): cap the accumulated candidates at `max_results`; if that
    leaves zero listings AND a search error was recorded, raise
    `RuntimeError(search_error)`; otherwise the scan proceeds over the capped
    listings. -/
def run_scan_acquire (fetch : Nat → List ScanListing × Option String)
    (max_results : Nat) : Except String (List ScanListing) :=
  if ((acquire_pages fetch max_results).1.take max_results).length = 0 then
    match (acquire_pages fetch max_results).2 with
    | some e => Except.error e
    | none => Except.ok ((acquire_pages fetch max_results).1.take max_results)
  else Except.ok ((acquire_pages fetch max_results).1.take max_results)

/-- C7: `run_scan` fails the whole scan — raising the recorded acquisition
    error — exactly when the acquisition loop accumulated zero candidates and
    an acquisition error was recorded; given the `fetch_search_page` invariant
    that an attempt which records an error returns no candidates.  A page
    that merely returns zero candidates stops acquisition without an error,
    so a non-empty first page followed by an empty second page yields a
    successful scan over the accumulated (capped) candidates. -/
theorem run_scan_fails_iff_zero_and_error
    (fetch : Nat → List ScanListing × Option String) (max_results : Nat)
    (hinv : ∀ p : Nat, ((fetch p).2).isSome → (fetch p).1 = []) :
    (∀ e, run_scan_acquire fetch max_results = Except.error e ↔
      ((acquire_pages fetch max_results).1 = [] ∧
       (acquire_pages fetch max_results).2 = some e)) ∧
    (∀ r1 e2, fetch 1 = (r1, none) → r1 ≠ [] → fetch 2 = ([], e2) →
      run_scan_acquire fetch max_results = Except.ok (r1.take max_results)) := by
  constructor
  · intro e
    by_cases h1 : (fetch 1).1.isEmpty
    · have hemp : (fetch 1).1 = [] := List.isEmpty_iff.mp h1
      have hacq : acquire_pages fetch max_results = ((fetch 1).1, (fetch 1).2) := by
        unfold acquire_pages
        rw [if_pos h1]
      rw [hacq]
      simp only [hemp, List.take_nil, List.length_nil]
      unfold run_scan_acquire
      rw [hacq]
      simp only [hemp, List.take_nil, List.length_nil, if_pos rfl]
      cases he1 : (fetch 1).2 with
      | some e1 =>
        constructor
        · intro hrun
          cases hrun
          exact ⟨trivial, rfl⟩
        · rintro ⟨-, h⟩
          cases h
          rfl
      | none =>
        constructor
        · intro hrun
          cases hrun
        · rintro ⟨-, h⟩
          cases h
    · have hne : (fetch 1).1 ≠ [] := fun hcon => h1 (List.isEmpty_iff.mpr hcon)
      have he1 : (fetch 1).2 = none := by
        cases he : (fetch 1).2 with
        | none => rfl
        | some e1 => exact absurd (hinv 1 (by rw [he]; rfl)) hne
      by_cases h2 : max_results ≤ (fetch 1).1.length
      · have hacq : acquire_pages fetch max_results = ((fetch 1).1, (fetch 1).2) := by
          unfold acquire_pages
          rw [if_neg h1, if_pos h2]
        unfold run_scan_acquire
        rw [hacq, he1]
        constructor
        · intro hrun
          by_cases hz : ((fetch 1).1.take max_results).length = 0
          · rw [if_pos hz] at hrun
            cases hrun
          · rw [if_neg hz] at hrun
            cases hrun
        · rintro ⟨hcon, -⟩
          exact absurd hcon hne
      · have hacq : acquire_pages fetch max_results =
            ((fetch 1).1 ++ (fetch 2).1,
             match (fetch 1).2 with
             | some e => some e
             | none => (fetch 2).2) := by
          unfold acquire_pages
          rw [if_neg h1, if_neg h2]
        have hlen : 0 < max_results := by
          rcases Nat.eq_zero_or_pos max_results with hz | hp
          · exfalso
            exact h2 (by rw [hz]; exact Nat.zero_le _)
          · exact hp
        have htake : (((fetch 1).1 ++ (fetch 2).1).take max_results).length ≠ 0 := by
          rw [List.length_take]
          have hpos : 0 < ((fetch 1).1 ++ (fetch 2).1).length := by
            rw [List.length_append]
            have := List.length_pos.mpr hne
            omega
          omega
        unfold run_scan_acquire
        rw [hacq]
        simp only at htake ⊢
        rw [if_neg htake]
        constructor
        · intro hrun
          cases hrun
        · rintro ⟨hcon, -⟩
          have : (fetch 1).1 = [] ∧ (fetch 2).1 = [] := by
            rcases List.append_eq_nil.mp hcon with ⟨ha, hb⟩
            exact ⟨ha, hb⟩
          exact absurd this.1 hne
  · intro r1 e2 hf1 hne hf2
    have hfst1 : (fetch 1).1 = r1 := by rw [hf1]
    have hsnd1 : (fetch 1).2 = none := by rw [hf1]
    have hfst2 : (fetch 2).1 = [] := by rw [hf2]
    have h1 : ¬ (fetch 1).1.isEmpty = true := by
      rw [hfst1]
      exact fun hcon => hne (List.isEmpty_iff.mp hcon)
    have hfst : (acquire_pages fetch max_results).1 = r1 := by
      unfold acquire_pages
      by_cases h2 : max_results ≤ (fetch 1).1.length
      · rw [if_neg h1, if_pos h2]
        exact hfst1
      · rw [if_neg h1, if_neg h2]
        show (fetch 1).1 ++ (fetch 2).1 = r1
        rw [hfst1, hfst2, List.append_nil]
    by_cases hz : (r1.take max_results).length = 0
    · have hm : max_results = 0 := by
        rw [List.length_take] at hz
        have := List.length_pos.mpr hne
        omega
      have h2 : max_results ≤ (fetch 1).1.length := by
        rw [hm]
        exact Nat.zero_le _
      have hsnd : (acquire_pages fetch max_results).2 = none := by
        unfold acquire_pages
        rw [if_neg h1, if_pos h2]
        exact hsnd1
      unfold run_scan_acquire
      rw [hfst, hsnd, if_pos hz]
    · unfold run_scan_acquire
      rw [hfst, if_neg hz]

/-- A concrete page-fetch oracle for the C7 witness: page 1 yields one
    candidate with no recorded error, page 2 yields nothing. -/
def witness_fetch (p : Nat) : List ScanListing × Option String :=
  if p = 1 then ([⟨"scan-1", "Lenovo ThinkPad T480", "u", 25, "ME"⟩], none)
  else ([], none)

/-- Witness for C7: with a non-empty first page and an empty second page the
    scan succeeds over the accumulated candidates. -/
theorem run_scan_fails_iff_zero_and_error_witness :
    run_scan_acquire witness_fetch 96 =
      Except.ok [⟨"scan-1", "Lenovo ThinkPad T480", "u", 25, "ME"⟩] :=
  (run_scan_fails_iff_zero_and_error witness_fetch 96
    (fun p hp => by
      unfold witness_fetch at hp
      by_cases h : p = 1
      · rw [if_pos h] at hp
        cases hp
      · rw [if_neg h] at hp
        cases hp)).2
    [⟨"scan-1", "Lenovo ThinkPad T480", "u", 25, "ME"⟩] none
    (by unfold witness_fetch; rw [if_pos rfl])
    (by intro h; cases h)
    (by unfold witness_fetch; rw [if_neg (by omega)])

/-- The lockout markers checked by `fetch_govdeals_listings`
    (src/tracker.py line 75): "captcha" or "please log in" or "access denied"
    in the lower-cased response body. -/
def LOCKOUT_MARKERS : List String := ["captcha", "please log in", "access denied"]

/-- The marker test of src/tracker.py lines 74-75: any lockout marker occurs
    in `response.text.lower()`. -/
def page_blocked (body : String) : Bool :=
  LOCKOUT_MARKERS.any (fun m => strIn m (lowerChars body))

/-- The exceptions a cycle can raise, as seen by run.py's `run_scrape`:
    `tracker.CaptchaDetectedError` versus every other exception. -/
inductive CycleError where
  | captchaDetected (msg : String) : CycleError
  | generic (msg : String) : CycleError
deriving Repr, DecidableEq

/-- The response-handling step of `fetch_govdeals_listings` for one state's
    search page (src/tracker.py lines 73-80): after a successful HTTP fetch
    the body is checked for lockout markers BEFORE any parsing; a marker
    raises CaptchaDetectedError, otherwise the body is parsed into listing
    cards (the BeautifulSoup parsing is external, passed as `parse`). -/
def govdeals_handle_response (parse : String → List Listing) (state : String)
    (body : String) : Except CycleError (List Listing) :=
  if page_blocked body then
    Except.error (CycleError.captchaDetected
      ("GovDeals returned a CAPTCHA or login wall for state " ++ state))
  else
    Except.ok (parse body)

/-- The operator notifications run.py can emit for a scheduled scrape:
    notify.success, notify.manual_step and notify.error. -/
inductive OperatorNotice where
  | success (msg : String) : OperatorNotice
  | manualStep (msg : String) : OperatorNotice
  | failure (msg : String) : OperatorNotice
deriving Repr, DecidableEq

/-- `run.run_scrape`'s exception dispatch (src/run.py lines 74-101):
    CaptchaDetectedError is caught separately and reported as a
    manual-intervention notice, distinct from the generic failure notice. -/
def run_scrape_notify (outcome : Except CycleError Nat) : OperatorNotice :=
  match outcome with
  | Except.ok newCount =>
      OperatorNotice.success (toString newCount ++ " new listing(s) found.")
  | Except.error (CycleError.captchaDetected _) =>
      OperatorNotice.manualStep "Manual action required — check the scraper."
  | Except.error (CycleError.generic msg) =>
      OperatorNotice.failure ("Scrape failed: " ++ msg)

/-- One item of the JSON search payload consumed by `fetch_search_page`
    (src/shipping_scanner.py lines 207-228), with the alternative key names
    the code probes via `item.get(...)`.  Absent keys are `none`; numeric bid
    fields are rationals (Python floats). -/
structure RawItem where
  title : Option String
  description : Option String
  name : Option String
  currentBid : Option Rat
  price : Option Rat
  startingBid : Option Rat
  location : Option String
  city : Option String
  state : Option String
  id : Option String
  assetId : Option String
  itemId : Option String
  url : Option String
  detailUrl : Option String
deriving Repr, DecidableEq

/-- Python's `a or b or ... or ''` over optional strings: the first present,
    non-empty (truthy) value, else the empty string. -/
def py_or_str : List (Option String) → String
  | [] => ""
  | some s :: rest => if s = "" then py_or_str rest else s
  | none :: rest => py_or_str rest

/-- Python's `float(a or b or ... or 0)` over optional numbers: the first
    present, non-zero (truthy) value, else 0. -/
def py_or_rat : List (Option Rat) → Rat
  | [] => 0
  | some q :: rest => if q = 0 then py_or_rat rest else q
  | none :: rest => py_or_rat rest

/-- Python's `base_url.rstrip('/')`. -/
def rstrip_slash (s : String) : String :=
  ⟨(s.toList.reverse.dropWhile (fun c => c == '/')).reverse⟩

/-- Python's `href.lstrip('/')`. -/
def lstrip_slash (s : String) : String :=
  ⟨s.toList.dropWhile (fun c => c == '/')⟩

/-- Python's `href.startswith('http')`. -/
def starts_with_http (s : String) : Bool :=
  decide ("http".toList <+: s.toList)

/-- The per-item extraction of `fetch_search_page`'s JSON success path
    (src/shipping_scanner.py lines 207-230): probe alternative key names,
    resolve relative URLs against the base URL, build a detail URL from the
    id when none was given, and silently drop items missing id or title. -/
def extract_item (base_url : String) (item : RawItem) : Option ScanListing :=
  let title := py_or_str [item.title, item.description, item.name]
  let price := py_or_rat [item.currentBid, item.price, item.startingBid]
  let location := py_or_str [item.location, item.city, item.state]
  let listing_id := py_or_str [item.id, item.assetId, item.itemId]
  let href0 := py_or_str [item.url, item.detailUrl]
  let href1 :=
    if href0 ≠ "" ∧ ¬ starts_with_http href0 = true then
      rstrip_slash base_url ++ "/" ++ lstrip_slash href0
    else href0
  let href :=
    if href1 = "" ∧ listing_id ≠ "" then
      base_url ++ "/en/assets/" ++ listing_id
    else href1
  if listing_id = "" ∨ title = "" then none
  else some { id := "scan-" ++ listing_id, title := title, url := href,
              price := price, location := location }

/-- The outcome of `fetch_search_page`'s HTTP + JSON attempt
    (src/shipping_scanner.py lines 176-199): an HTTPError from
    raise_for_status, any other exception, or a 200 response whose body is
    `resp.text` and whose assets/results/items/data array is `raw_items`
    (empty when none of those keys matched). -/
inductive SearchAttempt where
  | httpError (status : Nat) : SearchAttempt
  | failed (msg : String) : SearchAttempt
  | jsonOk (body : String) (raw_items : List RawItem) : SearchAttempt
deriving Repr, DecidableEq

/-- `shipping_scanner.fetch_search_page` (src/shipping_scanner.py lines
    155-232) given the attempt outcome: HTTP and other errors record
    `_last_search_error` (second component) and return no listings; a parsed
    JSON payload with an empty items array falls back to HTML parsing of the
    same body (the BeautifulSoup fallback `_parse_html_search` is external,
    passed as `html_fallback`) with NO error recorded; a non-empty items
    array is extracted item by item, again with no error recorded.  The
    function contains no lockout-marker check. -/
def fetch_search_page (html_fallback : String → List ScanListing)
    (base_url : String) (page : Nat) (attempt : SearchAttempt) :
    List ScanListing × Option String :=
  match attempt with
  | SearchAttempt.httpError status =>
      ([], some ("GovDeals search returned HTTP " ++ toString status ++
        " — the site may be blocking automated requests. Try opening the scanner from a browser on the same machine."))
  | SearchAttempt.failed msg =>
      ([], some ("Search page " ++ toString page ++ " failed: " ++ msg))
  | SearchAttempt.jsonOk body raw_items =>
      if raw_items.isEmpty then (html_fallback body, none)
      else (raw_items.filterMap (extract_item base_url), none)

/-- Concrete response body for the C8 counterexample: it contains the
    lockout marker "captcha". -/
def cex_body : String :=
  "Please complete the CAPTCHA to view GovDeals search results"

/-- Concrete JSON item for the C8 counterexample. -/
def cex_item : RawItem :=
  { title := some "Lenovo ThinkPad T480 lot", description := none, name := none,
    currentBid := some 25, price := none, startingBid := none,
    location := some "Augusta, ME", city := none, state := none,
    id := some "12345", assetId := none, itemId := none,
    url := none, detailUrl := none }

/-- C8 counterexample: the claim quantifies over every acquisition response,
    but the shipping scanner's `fetch_search_page` performs no lockout-marker
    check at all.  Concretely, a response whose body contains the marker
    "captcha" and whose JSON payload carries one item is handled as an
    ordinary, legitimate results page: the listing is extracted and no error
    and no distinct AccessBlocked condition is recorded. -/
theorem fetch_search_page_ignores_lockout_cex :
    page_blocked cex_body = true ∧
    fetch_search_page (fun _ => []) "https://www.govdeals.com" 1
        (SearchAttempt.jsonOk cex_body [cex_item]) =
      ([⟨"scan-12345", "Lenovo ThinkPad T480 lot",
          "https://www.govdeals.com/en/assets/12345", 25, "Augusta, ME"⟩],
       none) := by
  exact ⟨rfl, rfl⟩

/-- C8 amended: lockout-marker short-circuiting holds on the tracker
    acquisition path: whenever the response body for a state's search page
    contains a lockout marker (case-insensitively), `fetch_govdeals_listings`
    raises CaptchaDetectedError before any parsing — the response is never
    treated as a results page — and run.py's cycle caller reports that
    condition as a manual-intervention notice, distinct from every generic
    failure notice. -/
theorem govdeals_lockout_short_circuits (parse : String → List Listing)
    (state body : String)
    (h : ∃ m ∈ LOCKOUT_MARKERS, m.toList <:+: lowerChars body) :
    govdeals_handle_response parse state body =
      Except.error (CycleError.captchaDetected
        ("GovDeals returned a CAPTCHA or login wall for state " ++ state)) ∧
    (∀ ls : List Listing,
      govdeals_handle_response parse state body ≠ Except.ok ls) ∧
    run_scrape_notify (Except.error (CycleError.captchaDetected
        ("GovDeals returned a CAPTCHA or login wall for state " ++ state))) =
      OperatorNotice.manualStep "Manual action required — check the scraper." ∧
    (∀ m1 m2 : String,
      run_scrape_notify (Except.error (CycleError.captchaDetected m1)) ≠
      run_scrape_notify (Except.error (CycleError.generic m2))) := by
  have hb : page_blocked body = true := by
    obtain ⟨m, hm, hinf⟩ := h
    unfold page_blocked
    rw [List.any_eq_true]
    exact ⟨m, hm, (strIn_iff _ _).mpr hinf⟩
  have heq : govdeals_handle_response parse state body =
      Except.error (CycleError.captchaDetected
        ("GovDeals returned a CAPTCHA or login wall for state " ++ state)) := by
    unfold govdeals_handle_response
    rw [if_pos hb]
  refine ⟨heq, ?_, rfl, ?_⟩
  · intro ls hcon
    rw [heq] at hcon
    cases hcon
  · intro m1 m2 hcon
    cases hcon

/-- Witness for the amended C8 at a concrete login-wall body. -/
theorem govdeals_lockout_short_circuits_witness :
    govdeals_handle_response (fun _ => []) "ME" "ACCESS DENIED: unusual traffic" =
      Except.error (CycleError.captchaDetected
        "GovDeals returned a CAPTCHA or login wall for state ME") :=
  (govdeals_lockout_short_circuits (fun _ => []) "ME" "ACCESS DENIED: unusual traffic"
    ⟨"access denied", by decide, by decide⟩).1

/-- run.py's module-level `_scan` dict (src/run.py lines 325-331). -/
structure ScanState where
  running : Bool
  done : Nat
  total : Nat
  error : Option String
  finished : Option String
deriving Repr, DecidableEq

/-- `run.start_scan`'s request handling (src/run.py lines 364-403): when the
    scan state's running flag is set, the request is answered with JSON
    status "already_running" (an ordinary 200 response, not an error) and no
    background scan thread is spawned — the request is rejected, not queued;
    otherwise a background scan thread is spawned and the request immediately
    answers "started".  The Bool records whether a scan was spawned. -/
def start_scan (s : ScanState) : String × Bool :=
  if s.running then ("already_running", false)
  else ("started", true)

/-- C9: the scan is single-flight: a start-scan request made while the scan
    state's running flag is true is answered "already_running" with no scan
    spawned (rejected, not queued, not an error), an otherwise-issued request
    immediately answers "started", and a new scan is activated exactly when
    none is running — so at most one scan is active at a time. -/
theorem start_scan_single_flight (s : ScanState) :
    (s.running = true → start_scan s = ("already_running", false)) ∧
    (s.running = false → start_scan s = ("started", true)) ∧
    ((start_scan s).2 = true ↔ s.running = false) ∧
    ((start_scan s).1 = "already_running" ∨ (start_scan s).1 = "started") := by
  unfold start_scan
  cases h : s.running
  · simp
  · simp

/-- Witness for C9: a request issued while a scan is running is answered
    "already_running" and spawns nothing. -/
theorem start_scan_single_flight_witness :
    start_scan ⟨true, 3, 96, none, none⟩ = ("already_running", false) :=
  (start_scan_single_flight ⟨true, 3, 96, none, none⟩).1 rfl
